import Mathlib

/-!
# Verification of the database failure gate and bootstrap orchestration

Shallow embedding of `src/cmd/main.go`:

* `DatabaseBreaker` (the failure gate) is embedded as a state machine on
  `GateState` (`consecutiveFailures`, `lastAttempt`).  One call of the
  returned closure is `attempt`, decomposed — exactly as the source is by
  its two lock sections — into the read-locked admission check `admits`
  and the write-locked state update `recordOutcome`.
* Go `time.Time` values are modelled as unbounded integers counting
  nanoseconds (the monotonic reading); `time.Duration` arithmetic is
  64-bit signed and wraps, which `toInt64` makes explicit.  The source
  computes the cooldown as `time.Second * 2 << d`, i.e. the 64-bit wrap of
  `2·10^9 · 2^d` nanoseconds.
* The bootstrap orchestration in `main` (initial synchronous attempt, then
  a polling retry goroutine with an absolute deadline and a handoff
  channel) is embedded as `bootstrap` / `retryLoop` over an oracle
  schedule of `Tick`s: each tick carries the `time.Now()` samples taken
  during that loop iteration and the outcome the factory would produce if
  it is invoked.  `log.Fatalf` (process abort with non-zero status) is the
  `BootResult.fatal` outcome; delivery over the `dbStream` channel is the
  `BootResult.connected` outcome.
-/

/-- Reinterpretation of an integer as a signed 64-bit value (two's
complement wrap): how Go `int64` / `time.Duration` arithmetic behaves. -/
def toInt64 (n : Int) : Int := (n + 2 ^ 63) % 2 ^ 64 - 2 ^ 63

/-- Nanoseconds per second: Go `time.Second` as a `time.Duration` count. -/
def nsPerSecond : Int := 1000000000

/-- The mutable state captured by the `DatabaseBreaker` closure
(`consecutiveFailures int`, `lastAttempt time.Time`).  `consecutiveFailures`
is only ever reset to 0 or incremented, so it is kept as a `Nat`;
`lastAttempt` is a timestamp in nanoseconds. -/
structure GateState where
  consecutiveFailures : Nat
  lastAttempt : Int
deriving DecidableEq, Repr

/-- Outcome of one call of the gate: the short-circuit error
`errors.New("service unavailable")`, a propagated factory error, or a
connection handle (handles are opaque; we number them). -/
inductive GateResult where
  | gateClosed
  | factoryFailure
  | connection (c : Nat)
deriving DecidableEq, Repr

/-- Result of one call of the gated closure: the updated closure state, the
returned value, and whether the wrapped factory `dbCircuit` was invoked. -/
structure AttemptResult where
  state : GateState
  result : GateResult
  invokedFactory : Bool
deriving DecidableEq, Repr

/-- The cooldown the source computes for `d = consecutiveFailures - T ≥ 0`:
`time.Second * 2 << d`, a 64-bit signed duration in nanoseconds, so the
mathematical value `2·10^9 · 2^d` wraps modulo `2^64`. -/
def cooldownNs (d : Nat) : Int := toInt64 (2 * nsPerSecond * 2 ^ d)

/-- The read-locked admission check (source lines 45-54): compute
`d := consecutiveFailures - int(failureThreshold)`; if `d >= 0` and `now`
is not strictly after `lastAttempt.Add(time.Second * 2 << d)`, reject
(return `false`); otherwise admit the call to the factory. -/
def admits (T : Nat) (s : GateState) (now1 : Int) : Bool :=
  let d : Int := (s.consecutiveFailures : Int) - (T : Int)
  if 0 ≤ d then
    decide (now1 > s.lastAttempt + cooldownNs d.toNat)
  else
    true

/-- The write-locked state update (source lines 59-67): set
`lastAttempt = time.Now()`; on factory error increment
`consecutiveFailures`, on success reset it to 0.  `fres` is the factory's
outcome (`some c` a connection, `none` an error). -/
def recordOutcome (s : GateState) (now2 : Int) (fres : Option Nat) : GateState :=
  { consecutiveFailures := if fres.isNone then s.consecutiveFailures + 1 else 0
    lastAttempt := now2 }

/-- One call of the closure returned by `DatabaseBreaker`: the admission
check at time `now1`, then — only if admitted — the factory call with
outcome `fres` and the state update at time `now2`.  A rejected call
returns the `service unavailable` error, leaves the state untouched and
does not invoke the factory. -/
def attempt (T : Nat) (s : GateState) (now1 now2 : Int) (fres : Option Nat) :
    AttemptResult :=
  if admits T s now1 then
    { state := recordOutcome s now2 fres
      result := match fres with
        | some c => .connection c
        | none => .factoryFailure
      invokedFactory := true }
  else
    { state := s, result := .gateClosed, invokedFactory := false }

/-- A run of consecutive all-failing calls of the gate: each list entry is
the pair of `time.Now()` samples of one call, the factory failing every
time it is reached.  Returns the final state and the per-call results. -/
def runFailing (T : Nat) (s : GateState) :
    List (Int × Int) → GateState × List AttemptResult
  | [] => (s, [])
  | (n1, n2) :: rest =>
    let r := attempt T s n1 n2 none
    let p := runFailing T r.state rest
    (p.1, r :: p.2)

/-- One iteration of the retry goroutine's loop (source lines 81-93):
`tickNow` is the `time.Now()` sample at the deadline check, `checkNow` and
`updateNow` the samples inside the gated attempt, and `factoryResult` the
outcome the factory produces if the gate delegates on this iteration. -/
structure Tick where
  tickNow : Int
  checkNow : Int
  updateNow : Int
  factoryResult : Option Nat
deriving DecidableEq, Repr

/-- Terminal outcome of the bootstrap orchestration: a connection handed to
the caller, the fatal process abort of `log.Fatalf` (non-zero exit status
with a diagnostic), or the modelled schedule running out while the real
loop would still be polling. -/
inductive BootResult where
  | connected (c : Nat)
  | fatal
  | pending
deriving DecidableEq, Repr

/-- Observable trace of a bootstrap run: terminal outcome, number of
failure log lines (`fmt.Printf` of the error inside the retry loop),
number of `Trying to connect...` lines, and the list of gate-call results
in order. -/
structure LoopTrace where
  res : BootResult
  errLines : Nat
  tryLines : Nat
  attempts : List AttemptResult
deriving DecidableEq, Repr

/-- The retry goroutine (source lines 79-94): on each tick, first compare
`time.Now()` against the absolute deadline and abort fatally if it has
passed; otherwise log `Trying to connect...` and make one gated attempt;
on error print it and continue, on success deliver the connection and
stop. -/
def retryLoop (T : Nat) (deadline : Int) (s : GateState) :
    List Tick → LoopTrace
  | [] => { res := .pending, errLines := 0, tryLines := 0, attempts := [] }
  | tk :: rest =>
    if tk.tickNow > deadline then
      { res := .fatal, errLines := 0, tryLines := 0, attempts := [] }
    else
      let r := attempt T s tk.checkNow tk.updateNow tk.factoryResult
      match r.result with
      | .connection c =>
        { res := .connected c, errLines := 0, tryLines := 1, attempts := [r] }
      | _ =>
        let t := retryLoop T deadline r.state rest
        { res := t.res
          errLines := t.errLines + 1
          tryLines := t.tryLines + 1
          attempts := r :: t.attempts }

/-- The bootstrap orchestration of `main` (source lines 72-97): the gate is
created fresh (`consecutiveFailures = 0`, `lastAttempt` = creation time
`t0`); one synchronous gated attempt is made (times `n10`, `n20`, factory
outcome `f0`); on success the caller proceeds directly, otherwise the
retry goroutine runs with absolute deadline `deadline` (in `main`:
goroutine start time + 32 s) over the tick schedule `ticks` and the caller
blocks until it delivers a connection or aborts.  The initial failure
prints only the `Connecting....` banner, not the error, so it adds no
failure log line. -/
def bootstrap (T : Nat) (t0 n10 n20 : Int) (f0 : Option Nat)
    (deadline : Int) (ticks : List Tick) : LoopTrace :=
  let s0 : GateState := { consecutiveFailures := 0, lastAttempt := t0 }
  let r0 := attempt T s0 n10 n20 f0
  match r0.result with
  | .connection c =>
    { res := .connected c, errLines := 0, tryLines := 0, attempts := [r0] }
  | _ =>
    let t := retryLoop T deadline r0.state ticks
    { res := t.res
      errLines := t.errLines
      tryLines := t.tryLines
      attempts := r0 :: t.attempts }

/-- The connection values of the successful gate calls in a trace, in
order. -/
def successes : List AttemptResult → List Nat
  | [] => []
  | r :: rs =>
    match r.result with
    | .connection c => c :: successes rs
    | _ => successes rs

example :
    (attempt 4 { consecutiveFailures := 0, lastAttempt := 0 } 5 6 (some 9)).result
      = .connection 9 := by decide

section HelperLemmas

/-- Any 64-bit reinterpreted value lies in `[-2^63, 2^63)`. -/
theorem toInt64_bounds (x : Int) : -2 ^ 63 ≤ toInt64 x ∧ toInt64 x < 2 ^ 63 := by
  unfold toInt64
  constructor
  · have h := Int.emod_nonneg (x + 2 ^ 63) (by norm_num : (2 ^ 64 : Int) ≠ 0)
    omega
  · have h := Int.emod_lt_of_pos (x + 2 ^ 63) (by norm_num : (0 : Int) < 2 ^ 64)
    omega

/-- Reinterpretation is the identity on values that fit in 64 signed
bits. -/
theorem toInt64_eq_self (x : Int) (h0 : -2 ^ 63 ≤ x) (h1 : x < 2 ^ 63) :
    toInt64 x = x := by
  unfold toInt64
  rw [Int.emod_eq_of_lt (by omega) (by omega)]
  omega

/-- For shift amounts up to 32 the cooldown does not overflow: it is
exactly `2·10^9 · 2^d` nanoseconds, i.e. `2^(d+1)` seconds. -/
theorem cooldownNs_eq_of_le (d : Nat) (hd : d ≤ 32) :
    cooldownNs d = 2 * nsPerSecond * 2 ^ d := by
  unfold cooldownNs
  apply toInt64_eq_self
  · have : (0 : Int) ≤ 2 * nsPerSecond * 2 ^ d := by
      have h2 : (0 : Int) ≤ 2 ^ d := by positivity
      have hn : (0 : Int) ≤ 2 * nsPerSecond := by norm_num [nsPerSecond]
      exact mul_nonneg hn h2
    omega
  · have h2 : (2 : Int) ^ d ≤ 2 ^ 32 :=
      pow_le_pow_right₀ (by norm_num) hd
    have : 2 * nsPerSecond * 2 ^ d ≤ 2 * nsPerSecond * 2 ^ 32 := by
      have hn : (0 : Int) < 2 * nsPerSecond := by norm_num [nsPerSecond]
      exact mul_le_mul_of_nonneg_left h2 (le_of_lt hn)
    calc 2 * nsPerSecond * 2 ^ d ≤ 2 * nsPerSecond * 2 ^ 32 := this
      _ < 2 ^ 63 := by norm_num [nsPerSecond]

/-- Below the threshold the admission check always passes. -/
theorem admits_of_lt_threshold (T : Nat) (s : GateState) (now1 : Int)
    (h : s.consecutiveFailures < T) : admits T s now1 = true := by
  unfold admits
  have : ¬ (0 ≤ (s.consecutiveFailures : Int) - (T : Int)) := by
    omega
  simp [this]

/-- A delegated call has its factory outcome as its result. -/
theorem attempt_of_admits (T : Nat) (s : GateState) (n1 n2 : Int)
    (fres : Option Nat) (h : admits T s n1 = true) :
    attempt T s n1 n2 fres =
      { state := recordOutcome s n2 fres
        result := match fres with
          | some c => .connection c
          | none => .factoryFailure
        invokedFactory := true } := by
  unfold attempt
  simp [h]

/-- A rejected call returns `gateClosed` and touches nothing. -/
theorem attempt_of_not_admits (T : Nat) (s : GateState) (n1 n2 : Int)
    (fres : Option Nat) (h : admits T s n1 = false) :
    attempt T s n1 n2 fres =
      { state := s, result := .gateClosed, invokedFactory := false } := by
  unfold attempt
  simp [h]

/-- A call with a failing factory never produces a connection. -/
theorem attempt_none_no_connection (T : Nat) (s : GateState) (n1 n2 : Int)
    (c : Nat) : (attempt T s n1 n2 none).result ≠ .connection c := by
  unfold attempt
  by_cases h : admits T s n1 = true <;> simp [h]

end HelperLemmas

section ClaimC2

/-- Claim C2: on every call of the gate, a delegated call that succeeds
resets `consecutiveFailures` to 0, a delegated call that fails increments
it by exactly 1, and a short-circuited call leaves the state unchanged
(so in particular a single success re-opens the gate regardless of how
many failures preceded it). -/
theorem C2_failure_counter_invariant (T : Nat) (s : GateState) (n1 n2 : Int)
    (fres : Option Nat) :
    ((attempt T s n1 n2 fres).invokedFactory = true → fres ≠ none →
      (attempt T s n1 n2 fres).state.consecutiveFailures = 0) ∧
    ((attempt T s n1 n2 fres).invokedFactory = true → fres = none →
      (attempt T s n1 n2 fres).state.consecutiveFailures
        = s.consecutiveFailures + 1) ∧
    ((attempt T s n1 n2 fres).invokedFactory = false →
      (attempt T s n1 n2 fres).state = s) := by
  unfold attempt recordOutcome
  by_cases h : admits T s n1 = true
  · cases fres <;> simp [h]
  · simp [h]

/-- Concrete instance of C2: a success after 2 failures resets the
counter, a third failure increments it to 3, and a short-circuited call at
the threshold leaves the state untouched. -/
theorem C2_failure_counter_invariant_witness :
    (attempt 4 { consecutiveFailures := 2, lastAttempt := 0 } 5 5
      (some 9)).state.consecutiveFailures = 0 ∧
    (attempt 4 { consecutiveFailures := 2, lastAttempt := 0 } 5 5
      none).state.consecutiveFailures = 2 + 1 ∧
    (attempt 4 { consecutiveFailures := 4, lastAttempt := 0 } 1 1
      none).state = { consecutiveFailures := 4, lastAttempt := 0 } :=
  ⟨(C2_failure_counter_invariant 4 ⟨2, 0⟩ 5 5 (some 9)).1 (by decide)
      (by decide),
   (C2_failure_counter_invariant 4 ⟨2, 0⟩ 5 5 none).2.1 (by decide) rfl,
   (C2_failure_counter_invariant 4 ⟨4, 0⟩ 1 1 none).2.2 (by decide)⟩

end ClaimC2

section ClaimC4

/-- Claim C4: `lastAttempt` is set to the current time (the `time.Now()`
sample taken under the write lock) whenever the call delegated to the
factory, regardless of the factory outcome, and the state — in particular
`lastAttempt` — is unchanged whenever the call was short-circuited with
`gateClosed`. -/
theorem C4_lastAttempt_frame (T : Nat) (s : GateState) (n1 n2 : Int)
    (fres : Option Nat) :
    ((attempt T s n1 n2 fres).invokedFactory = true →
      (attempt T s n1 n2 fres).state.lastAttempt = n2) ∧
    ((attempt T s n1 n2 fres).result = .gateClosed →
      (attempt T s n1 n2 fres).state.lastAttempt = s.lastAttempt ∧
      (attempt T s n1 n2 fres).invokedFactory = false) := by
  unfold attempt recordOutcome
  by_cases h : admits T s n1 = true
  · cases fres <;> simp [h]
  · simp [h]

/-- Concrete instance of C4: a delegated failing call stamps
`lastAttempt` with the update-time sample; a short-circuited call keeps
the old stamp. -/
theorem C4_lastAttempt_frame_witness :
    (attempt 4 { consecutiveFailures := 0, lastAttempt := 3 } 5 6
      none).state.lastAttempt = 6 ∧
    ((attempt 4 { consecutiveFailures := 4, lastAttempt := 3 } 4 5
      none).state.lastAttempt = 3 ∧
     (attempt 4 { consecutiveFailures := 4, lastAttempt := 3 } 4 5
      none).invokedFactory = false) :=
  ⟨(C4_lastAttempt_frame 4 ⟨0, 3⟩ 5 6 none).1 (by decide),
   (C4_lastAttempt_frame 4 ⟨4, 3⟩ 4 5 none).2 (by decide)⟩

end ClaimC4

section ClaimC8

/-- Claim C8: two concurrent calls that both run the read-locked admission
check on the same state with `d < 0` are both admitted and both invoke the
factory; when both factory calls fail, the two serialized write-lock
sections apply `recordOutcome` one after the other, so
`consecutiveFailures` ends exactly 2 higher — no lost update. -/
theorem C8_no_lost_update (T : Nat) (s : GateState) (n1 n1' n2 n2' : Int)
    (h : s.consecutiveFailures < T) :
    admits T s n1 = true ∧ admits T s n1' = true ∧
    (recordOutcome (recordOutcome s n2 none) n2' none).consecutiveFailures
      = s.consecutiveFailures + 2 := by
  refine ⟨admits_of_lt_threshold T s n1 h,
    admits_of_lt_threshold T s n1' h, ?_⟩
  simp [recordOutcome]

/-- Concrete instance of C8: two interleaved failing calls on a fresh gate
with threshold 4 leave the counter at 2. -/
theorem C8_no_lost_update_witness :
    (0 : Nat) < 4 ∧
    (admits 4 { consecutiveFailures := 0, lastAttempt := 0 } 1 = true ∧
     admits 4 { consecutiveFailures := 0, lastAttempt := 0 } 2 = true ∧
     (recordOutcome (recordOutcome { consecutiveFailures := 0, lastAttempt := 0 }
        3 none) 4 none).consecutiveFailures = 0 + 2) :=
  ⟨by decide, C8_no_lost_update 4 ⟨0, 0⟩ 1 2 3 4 (by decide)⟩

end ClaimC8

section ClaimC3

/-- In a run of consecutive all-failing calls that stays within the
threshold, every call is admitted to the factory and fails there, and the
failure counter ends at its start value plus the number of calls. -/
theorem runFailing_all_delegate (T : Nat) (ts : List (Int × Int)) :
    ∀ s : GateState, s.consecutiveFailures + ts.length ≤ T →
      (∀ r ∈ (runFailing T s ts).2,
        r.invokedFactory = true ∧ r.result = .factoryFailure) ∧
      (runFailing T s ts).1.consecutiveFailures
        = s.consecutiveFailures + ts.length := by
  induction ts with
  | nil =>
    intro s h
    simp [runFailing]
  | cons p rest ih =>
    intro s h
    obtain ⟨n1, n2⟩ := p
    have hlt : s.consecutiveFailures < T := by
      simp only [List.length_cons] at h
      omega
    have hadm := admits_of_lt_threshold T s n1 hlt
    have heq := attempt_of_admits T s n1 n2 none hadm
    have hrec : (recordOutcome s n2 none).consecutiveFailures
        = s.consecutiveFailures + 1 := by
      simp [recordOutcome]
    have hih := ih (recordOutcome s n2 none) (by
      rw [hrec]
      simp only [List.length_cons] at h
      omega)
    simp only [runFailing, heq]
    refine ⟨?_, ?_⟩
    · intro r hr
      simp only [List.mem_cons] at hr
      rcases hr with rfl | hr
      · exact ⟨rfl, rfl⟩
      · exact hih.1 r hr
    · rw [hih.2, hrec]
      simp only [List.length_cons]
      omega

/-- Claim C3: starting from a fresh gate, every one of the first
`ts.length ≤ T` calls of a run of consecutive factory failures reaches
the wrapped factory — the gate never returns the short-circuit
`gateClosed` while the failure count is below the threshold, irrespective
of the `time.Now()` samples of the calls. -/
theorem C3_below_threshold_always_delegates (T : Nat) (t0 : Int)
    (ts : List (Int × Int)) (h : ts.length ≤ T) :
    ∀ r ∈ (runFailing T { consecutiveFailures := 0, lastAttempt := t0 } ts).2,
      r.invokedFactory = true ∧ r.result ≠ .gateClosed := by
  have hall := runFailing_all_delegate T ts
    { consecutiveFailures := 0, lastAttempt := t0 } (by simpa using h)
  intro r hr
  obtain ⟨h1, h2⟩ := hall.1 r hr
  refine ⟨h1, ?_⟩
  rw [h2]
  intro hc
  cases hc

/-- Concrete instance of C3: with threshold 4, four back-to-back failing
calls (1 ns apart, far inside any cooldown window) all reach the
factory. -/
theorem C3_below_threshold_always_delegates_witness :
    ([((1 : Int), (1 : Int)), (2, 2), (3, 3), (4, 4)].length ≤ 4) ∧
    ∀ r ∈ (runFailing 4 { consecutiveFailures := 0, lastAttempt := 0 }
      [((1 : Int), (1 : Int)), (2, 2), (3, 3), (4, 4)]).2,
      r.invokedFactory = true ∧ r.result ≠ .gateClosed :=
  ⟨by decide,
   C3_below_threshold_always_delegates 4 0
     [((1 : Int), (1 : Int)), (2, 2), (3, 3), (4, 4)] (by decide)⟩

end ClaimC3

section ClaimC1

/-- Claim C1 (amended with the bound `consecutiveFailures ≤ T + 32`, below
which the 64-bit cooldown arithmetic does not overflow): once the recorded
failure count `i` is at or beyond the threshold (`d = i - T ≥ 0`), a call
made before `lastAttempt + 2^((i-T)+1)` seconds — 2 seconds at the first
over-threshold failure, doubling per further failure — returns
`gateClosed`, does not invoke the wrapped factory and leaves the state
unchanged. -/
theorem C1_over_threshold_short_circuits (T : Nat) (s : GateState)
    (n1 n2 : Int) (fres : Option Nat)
    (hgt : T ≤ s.consecutiveFailures)
    (hle : s.consecutiveFailures ≤ T + 32)
    (hbefore : n1 < s.lastAttempt
      + 2 ^ (s.consecutiveFailures - T + 1) * nsPerSecond) :
    (attempt T s n1 n2 fres).result = .gateClosed ∧
    (attempt T s n1 n2 fres).invokedFactory = false ∧
    (attempt T s n1 n2 fres).state = s := by
  have hd : (0 : Int) ≤ (s.consecutiveFailures : Int) - (T : Int) := by
    omega
  have hdn : ((s.consecutiveFailures : Int) - (T : Int)).toNat
      = s.consecutiveFailures - T := by
    omega
  have hcool : cooldownNs (s.consecutiveFailures - T)
      = 2 * nsPerSecond * 2 ^ (s.consecutiveFailures - T) :=
    cooldownNs_eq_of_le _ (by omega)
  have hnom : (2 : Int) ^ (s.consecutiveFailures - T + 1) * nsPerSecond
      = 2 * nsPerSecond * 2 ^ (s.consecutiveFailures - T) := by
    rw [pow_succ]
    ring
  have hadm : admits T s n1 = false := by
    unfold admits
    rw [if_pos hd, hdn, hcool, decide_eq_false_iff_not]
    rw [hnom] at hbefore
    omega
  rw [attempt_of_not_admits T s n1 n2 fres hadm]
  exact ⟨rfl, rfl, rfl⟩

/-- Concrete instance of the amended C1: threshold 4, five recorded
failures (`d = 1`), so the cooldown is 4 seconds; a call 1 ns after
`lastAttempt` is rejected without reaching the factory. -/
theorem C1_over_threshold_short_circuits_witness :
    ((4 : Nat) ≤ 5 ∧ (5 : Nat) ≤ 4 + 32 ∧
      (1 : Int) < 0 + 2 ^ (5 - 4 + 1) * nsPerSecond) ∧
    ((attempt 4 { consecutiveFailures := 5, lastAttempt := 0 } 1 1
        none).result = .gateClosed ∧
     (attempt 4 { consecutiveFailures := 5, lastAttempt := 0 } 1 1
        none).invokedFactory = false ∧
     (attempt 4 { consecutiveFailures := 5, lastAttempt := 0 } 1 1
        none).state = { consecutiveFailures := 5, lastAttempt := 0 }) :=
  ⟨⟨by decide, by decide, by decide⟩,
   C1_over_threshold_short_circuits 4 ⟨5, 0⟩ 1 1 none (by decide)
     (by decide) (by decide)⟩

/-- Claim C1 as frozen is false: with threshold 4 and 37 recorded failures
(`d = 33`) the duration `time.Second * 2 << 33` wraps to a negative 64-bit
value, so a call at 1 ns after `lastAttempt` — long before the nominal
`2^34`-second cooldown has elapsed — delegates to the factory instead of
returning `gateClosed`. -/
theorem C1_counterexample :
    (1 : Int) < 0 + 2 ^ (37 - 4 + 1) * nsPerSecond ∧
    cooldownNs (37 - 4) < 0 ∧
    (attempt 4 { consecutiveFailures := 37, lastAttempt := 0 } 1 1
      none).invokedFactory = true ∧
    (attempt 4 { consecutiveFailures := 37, lastAttempt := 0 } 1 1
      none).result ≠ .gateClosed := by decide

end ClaimC1

section ClaimC9

/-- At or over the threshold, a call strictly after
`lastAttempt + cooldown` (the wrapped 64-bit cooldown) is admitted. -/
theorem admits_of_gt (T : Nat) (s : GateState) (n1 : Int)
    (hge : T ≤ s.consecutiveFailures)
    (hgt : n1 > s.lastAttempt + cooldownNs (s.consecutiveFailures - T)) :
    admits T s n1 = true := by
  unfold admits
  have hd : (0 : Int) ≤ (s.consecutiveFailures : Int) - (T : Int) := by
    omega
  have hdn : ((s.consecutiveFailures : Int) - (T : Int)).toNat
      = s.consecutiveFailures - T := by
    omega
  rw [if_pos hd, hdn, decide_eq_true_eq]
  exact hgt

/-- Claim C9: for every `d ≥ 33` the mathematical cooldown
`2·10^9 · 2^d` nanoseconds exceeds `2^63`, so the 64-bit duration
`time.Second * 2 << d` wraps: the computed cooldown is strictly smaller
than the nominal one (at `d = 33` it is negative), and in the state with
`consecutiveFailures = T + d` there is a call time before the nominal
`2^(d+1)`-second cooldown has elapsed at which the gate nevertheless
delegates to the factory. -/
theorem C9_cooldown_overflow (d : Nat) (h : 33 ≤ d) :
    2 * nsPerSecond * 2 ^ d > 2 ^ 63 ∧
    cooldownNs d < 2 * nsPerSecond * 2 ^ d ∧
    cooldownNs 33 < 0 ∧
    ∀ (T : Nat) (t0 : Int), ∃ n1 : Int,
      n1 < t0 + 2 ^ (d + 1) * nsPerSecond ∧
      (attempt T { consecutiveFailures := T + d, lastAttempt := t0 }
        n1 n1 none).invokedFactory = true := by
  have h33 : (2 : Int) ^ 33 ≤ 2 ^ d := pow_le_pow_right₀ (by norm_num) h
  have hmono : 2 * nsPerSecond * 2 ^ 33 ≤ 2 * nsPerSecond * 2 ^ d :=
    mul_le_mul_of_nonneg_left h33 (by norm_num [nsPerSecond])
  have hbig : (2 : Int) ^ 63 < 2 * nsPerSecond * 2 ^ d := by
    have h0 : (2 : Int) ^ 63 < 2 * nsPerSecond * 2 ^ 33 := by
      norm_num [nsPerSecond]
    exact lt_of_lt_of_le h0 hmono
  have hub : cooldownNs d < 2 ^ 63 := (toInt64_bounds (2 * nsPerSecond * 2 ^ d)).2
  refine ⟨hbig, lt_trans hub hbig, by decide, ?_⟩
  intro T t0
  refine ⟨t0 + max (cooldownNs d) 0 + 1, ?_, ?_⟩
  · have hmax : max (cooldownNs d) 0 < 2 ^ 63 := max_lt hub (by norm_num)
    have hnom : (2 : Int) ^ (d + 1) * nsPerSecond
        = 2 * nsPerSecond * 2 ^ d := by
      rw [pow_succ]
      ring
    rw [hnom]
    linarith
  · have hadm : admits T { consecutiveFailures := T + d, lastAttempt := t0 }
        (t0 + max (cooldownNs d) 0 + 1) = true := by
      apply admits_of_gt
      · show T ≤ T + d
        omega
      · show t0 + max (cooldownNs d) 0 + 1 > t0 + cooldownNs (T + d - T)
        have hTd : T + d - T = d := by omega
        rw [hTd]
        have hmx := le_max_left (cooldownNs d) 0
        omega
    rw [attempt_of_admits _ _ _ _ _ hadm]

/-- Concrete instance of C9 at `d = 33` (the first overflowing shift
amount). -/
theorem C9_cooldown_overflow_witness :
    (33 : Nat) ≤ 33 ∧
    (2 * nsPerSecond * 2 ^ 33 > 2 ^ 63 ∧
     cooldownNs 33 < 2 * nsPerSecond * 2 ^ 33 ∧
     cooldownNs 33 < 0 ∧
     ∀ (T : Nat) (t0 : Int), ∃ n1 : Int,
       n1 < t0 + 2 ^ (33 + 1) * nsPerSecond ∧
       (attempt T { consecutiveFailures := T + 33, lastAttempt := t0 }
         n1 n1 none).invokedFactory = true) :=
  ⟨by decide, C9_cooldown_overflow 33 (by decide)⟩

end ClaimC9

section ClaimC10

/-- Claim C10: the retry loop compares the clock against the deadline only
at the start of a tick, before the gated attempt: an attempt whose tick
started at or before the deadline and whose factory call succeeds delivers
its connection even though its completion time (`updateNow`, the sample
stamped under the write lock) is already past the deadline. -/
theorem C10_deadline_only_bounds_start (T : Nat) (deadline : Int)
    (s : GateState) (tk : Tick) (rest : List Tick) (c : Nat)
    (h1 : ¬ tk.tickNow > deadline)
    (_h2 : tk.updateNow > deadline)
    (h3 : admits T s tk.checkNow = true)
    (h4 : tk.factoryResult = some c) :
    (retryLoop T deadline s (tk :: rest)).res = .connected c := by
  simp only [retryLoop, if_neg h1, h4,
    attempt_of_admits T s tk.checkNow tk.updateNow (some c) h3]

/-- Concrete instance of C10: deadline 32, tick starts at 10, the attempt
completes at 99 (past the deadline) and still delivers connection 7. -/
theorem C10_deadline_only_bounds_start_witness :
    ((¬ (Tick.mk 10 10 99 (some 7)).tickNow > 32) ∧
     (Tick.mk 10 10 99 (some 7)).updateNow > 32 ∧
     admits 4 { consecutiveFailures := 0, lastAttempt := 0 }
       (Tick.mk 10 10 99 (some 7)).checkNow = true ∧
     (Tick.mk 10 10 99 (some 7)).factoryResult = some 7) ∧
    (retryLoop 4 32 { consecutiveFailures := 0, lastAttempt := 0 }
      [Tick.mk 10 10 99 (some 7)]).res = .connected 7 :=
  ⟨⟨by decide, by decide, by decide, rfl⟩,
   C10_deadline_only_bounds_start 4 32 ⟨0, 0⟩ ⟨10, 10, 99, some 7⟩ [] 7
     (by decide) (by decide) (by decide) rfl⟩

end ClaimC10

section ClaimC5

/-- If the retry loop delivers a connection, the trace of gate calls it
made contains exactly one success, and it carries that connection. -/
theorem retryLoop_connected_successes (T : Nat) (deadline : Int)
    (ticks : List Tick) :
    ∀ (s : GateState) (c : Nat),
      (retryLoop T deadline s ticks).res = .connected c →
      successes (retryLoop T deadline s ticks).attempts = [c] := by
  induction ticks with
  | nil =>
    intro s c h
    simp [retryLoop] at h
  | cons tk rest ih =>
    intro s c h
    by_cases hd : tk.tickNow > deadline
    · simp only [retryLoop, if_pos hd] at h
      cases h
    · simp only [retryLoop, if_neg hd] at h ⊢
      rcases hres : (attempt T s tk.checkNow tk.updateNow
          tk.factoryResult).result with _ | _ | c0
      · simp only [hres] at h ⊢
        simp only [successes, hres]
        exact ih _ c h
      · simp only [hres] at h ⊢
        simp only [successes, hres]
        exact ih _ c h
      · simp only [hres, BootResult.connected.injEq] at h ⊢
        simp only [successes, hres, h]

/-- Claim C5: whenever the bootstrap orchestration hands the caller a
connection, exactly one successful gate attempt — the initial synchronous
one or one made by the retry task — has completed, and the delivered
connection is precisely the value produced by that attempt. -/
theorem C5_connection_from_unique_success (T : Nat) (t0 n10 n20 : Int)
    (f0 : Option Nat) (deadline : Int) (ticks : List Tick) (c : Nat)
    (h : (bootstrap T t0 n10 n20 f0 deadline ticks).res = .connected c) :
    successes (bootstrap T t0 n10 n20 f0 deadline ticks).attempts = [c] := by
  simp only [bootstrap] at h ⊢
  rcases hres : (attempt T { consecutiveFailures := 0, lastAttempt := t0 }
      n10 n20 f0).result with _ | _ | c0
  · simp only [hres] at h ⊢
    simp only [successes, hres]
    exact retryLoop_connected_successes T deadline ticks _ c h
  · simp only [hres] at h ⊢
    simp only [successes, hres]
    exact retryLoop_connected_successes T deadline ticks _ c h
  · simp only [hres, BootResult.connected.injEq] at h ⊢
    simp only [successes, hres, h]

/-- Concrete instance of C5: the initial attempt fails, the first tick's
attempt succeeds with connection 7, and the trace contains exactly that
one success. -/
theorem C5_connection_from_unique_success_witness :
    (bootstrap 4 0 1 1 none 32 [Tick.mk 4 4 4 (some 7)]).res
      = .connected 7 ∧
    successes (bootstrap 4 0 1 1 none 32 [Tick.mk 4 4 4 (some 7)]).attempts
      = [7] :=
  ⟨by decide,
   C5_connection_from_unique_success 4 0 1 1 none 32
     [Tick.mk 4 4 4 (some 7)] 7 (by decide)⟩

end ClaimC5

section ClaimC6

/-- A retry loop whose factory fails on every tick: it aborts fatally as
soon as a tick starts past the deadline, stays pending while no tick does,
and never delivers a connection. -/
theorem retryLoop_all_fail (T : Nat) (deadline : Int) (ticks : List Tick) :
    ∀ s : GateState, (∀ tk ∈ ticks, tk.factoryResult = none) →
      ((∃ tk ∈ ticks, tk.tickNow > deadline) →
        (retryLoop T deadline s ticks).res = .fatal) ∧
      ((∀ tk ∈ ticks, ¬ tk.tickNow > deadline) →
        (retryLoop T deadline s ticks).res = .pending) ∧
      (∀ c, (retryLoop T deadline s ticks).res ≠ .connected c) := by
  induction ticks with
  | nil =>
    intro s _
    refine ⟨?_, ?_, ?_⟩ <;> simp [retryLoop]
  | cons tk rest ih =>
    intro s hf
    have hf0 : tk.factoryResult = none := hf tk (by simp)
    have hfr : ∀ t ∈ rest, t.factoryResult = none := by
      intro t ht
      exact hf t (by simp [ht])
    by_cases hd : tk.tickNow > deadline
    · refine ⟨?_, ?_, ?_⟩
      · intro _
        simp only [retryLoop, if_pos hd]
      · intro hall
        exact absurd hd (hall tk (by simp))
      · intro c
        simp only [retryLoop, if_pos hd]
        intro hc
        cases hc
    · have hih := ih (attempt T s tk.checkNow tk.updateNow
        tk.factoryResult).state hfr
      simp only [retryLoop, if_neg hd]
      rcases hres : (attempt T s tk.checkNow tk.updateNow
          tk.factoryResult).result with _ | _ | c0
      · refine ⟨?_, ?_, ?_⟩
        · rintro ⟨t, ht, htgt⟩
          simp only [hres]
          simp only [List.mem_cons] at ht
          rcases ht with rfl | ht
          · exact absurd htgt hd
          · exact hih.1 ⟨t, ht, htgt⟩
        · intro hall
          simp only [hres]
          exact hih.2.1 (fun t ht => hall t (by simp [ht]))
        · intro c
          simp only [hres]
          exact hih.2.2 c
      · refine ⟨?_, ?_, ?_⟩
        · rintro ⟨t, ht, htgt⟩
          simp only [hres]
          simp only [List.mem_cons] at ht
          rcases ht with rfl | ht
          · exact absurd htgt hd
          · exact hih.1 ⟨t, ht, htgt⟩
        · intro hall
          simp only [hres]
          exact hih.2.1 (fun t ht => hall t (by simp [ht]))
        · intro c
          simp only [hres]
          exact hih.2.2 c
      · rw [hf0] at hres
        exact absurd hres (attempt_none_no_connection T s _ _ c0)

/-- Claim C6: when the initial gated attempt fails and the factory fails
on every retry, the process aborts fatally (`log.Fatalf`, non-zero exit)
at the first tick that starts after the absolute deadline, no connection
is ever delivered to the caller, and the process never aborts while no
tick has started past the deadline. -/
theorem C6_deadline_fatal (T : Nat) (t0 n10 n20 : Int) (deadline : Int)
    (ticks : List Tick)
    (hticks : ∀ tk ∈ ticks, tk.factoryResult = none) :
    ((∃ tk ∈ ticks, tk.tickNow > deadline) →
      (bootstrap T t0 n10 n20 none deadline ticks).res = .fatal) ∧
    ((∀ tk ∈ ticks, ¬ tk.tickNow > deadline) →
      (bootstrap T t0 n10 n20 none deadline ticks).res ≠ .fatal) ∧
    (∀ c, (bootstrap T t0 n10 n20 none deadline ticks).res
      ≠ .connected c) := by
  have hloop := retryLoop_all_fail T deadline ticks
    (attempt T { consecutiveFailures := 0, lastAttempt := t0 }
      n10 n20 none).state hticks
  simp only [bootstrap]
  rcases hres : (attempt T { consecutiveFailures := 0, lastAttempt := t0 }
      n10 n20 none).result with _ | _ | c0
  · simp only [hres]
    refine ⟨hloop.1, ?_, ?_⟩
    · intro hall
      rw [hloop.2.1 hall]
      intro hc
      cases hc
    · intro c
      exact hloop.2.2 c
  · simp only [hres]
    refine ⟨hloop.1, ?_, ?_⟩
    · intro hall
      rw [hloop.2.1 hall]
      intro hc
      cases hc
    · intro c
      exact hloop.2.2 c
  · exact absurd hres (attempt_none_no_connection T _ _ _ c0)

/-- Concrete instance of C6: every factory call fails, ticks start at 4
and 40 with deadline 32, so the second tick triggers the fatal abort and
no connection is delivered. -/
theorem C6_deadline_fatal_witness :
    (∀ tk ∈ [Tick.mk 4 4 4 none, Tick.mk 40 40 40 none],
      tk.factoryResult = none) ∧
    (((∃ tk ∈ [Tick.mk 4 4 4 none, Tick.mk 40 40 40 none],
        tk.tickNow > 32) →
      (bootstrap 4 0 1 1 none 32
        [Tick.mk 4 4 4 none, Tick.mk 40 40 40 none]).res = .fatal) ∧
     ((∀ tk ∈ [Tick.mk 4 4 4 none, Tick.mk 40 40 40 none],
        ¬ tk.tickNow > 32) →
      (bootstrap 4 0 1 1 none 32
        [Tick.mk 4 4 4 none, Tick.mk 40 40 40 none]).res ≠ .fatal) ∧
     (∀ c, (bootstrap 4 0 1 1 none 32
        [Tick.mk 4 4 4 none, Tick.mk 40 40 40 none]).res
        ≠ .connected c)) :=
  ⟨by decide, C6_deadline_fatal 4 0 1 1 32
    [Tick.mk 4 4 4 none, Tick.mk 40 40 40 none] (by decide)⟩

end ClaimC6

section ClaimC7

/-- Claim C7 as frozen is false: in the scenario where the factory fails
on exactly its first 3 invocations and succeeds on the 4th (ticks well
inside the deadline), only 2 failure log lines are emitted before the
success, because the initial synchronous failure prints only the
`Connecting....` banner and no error line — only the two failed retry
iterations print the error. -/
theorem C7_counterexample :
    (bootstrap 4 0 0 0 none 32
      [Tick.mk 4 4 4 none, Tick.mk 8 8 8 none,
       Tick.mk 12 12 12 (some 7)]).res = .connected 7 ∧
    (bootstrap 4 0 0 0 none 32
      [Tick.mk 4 4 4 none, Tick.mk 8 8 8 none,
       Tick.mk 12 12 12 (some 7)]).errLines = 2 ∧
    ¬ (bootstrap 4 0 0 0 none 32
      [Tick.mk 4 4 4 none, Tick.mk 8 8 8 none,
       Tick.mk 12 12 12 (some 7)]).errLines = 3 := by decide

/-- Claim C7 (amended: exactly 2 failure log lines, not 3, precede the
success, since the initial synchronous failure logs no error line): with
threshold 4, a failing initial attempt, two failing retry ticks and a
succeeding third tick — all ticks starting at or before the deadline —
bootstrap delivers the connection obtained by the 4th factory invocation;
all 4 gate calls reach the factory, 3 `Trying to connect...` lines and
exactly 2 failure log lines are emitted. -/
theorem C7_three_failures_then_success (t0 n10 n20 deadline : Int)
    (t1 t2 t3 : Tick) (c : Nat)
    (hf1 : t1.factoryResult = none) (hf2 : t2.factoryResult = none)
    (hf3 : t3.factoryResult = some c)
    (hd1 : ¬ t1.tickNow > deadline) (hd2 : ¬ t2.tickNow > deadline)
    (hd3 : ¬ t3.tickNow > deadline) :
    (bootstrap 4 t0 n10 n20 none deadline [t1, t2, t3]).res
      = .connected c ∧
    (bootstrap 4 t0 n10 n20 none deadline [t1, t2, t3]).errLines = 2 ∧
    (bootstrap 4 t0 n10 n20 none deadline [t1, t2, t3]).tryLines = 3 ∧
    (bootstrap 4 t0 n10 n20 none deadline [t1, t2, t3]).attempts.length
      = 4 ∧
    (∀ r ∈ (bootstrap 4 t0 n10 n20 none deadline [t1, t2, t3]).attempts,
      r.invokedFactory = true) := by
  simp [bootstrap, retryLoop, attempt, admits, recordOutcome,
    hf1, hf2, hf3, hd1, hd2, hd3]

/-- Concrete instance of the amended C7: ticks at 4, 8, 12 with deadline
32 deliver connection 7 on the 4th factory call with 2 failure log
lines. -/
theorem C7_three_failures_then_success_witness :
    (bootstrap 4 0 1 1 none 32
      [Tick.mk 4 4 4 none, Tick.mk 8 8 8 none,
       Tick.mk 12 12 12 (some 7)]).res = .connected 7 ∧
    (bootstrap 4 0 1 1 none 32
      [Tick.mk 4 4 4 none, Tick.mk 8 8 8 none,
       Tick.mk 12 12 12 (some 7)]).errLines = 2 ∧
    (bootstrap 4 0 1 1 none 32
      [Tick.mk 4 4 4 none, Tick.mk 8 8 8 none,
       Tick.mk 12 12 12 (some 7)]).tryLines = 3 ∧
    (bootstrap 4 0 1 1 none 32
      [Tick.mk 4 4 4 none, Tick.mk 8 8 8 none,
       Tick.mk 12 12 12 (some 7)]).attempts.length = 4 ∧
    (∀ r ∈ (bootstrap 4 0 1 1 none 32
      [Tick.mk 4 4 4 none, Tick.mk 8 8 8 none,
       Tick.mk 12 12 12 (some 7)]).attempts, r.invokedFactory = true) :=
  C7_three_failures_then_success 0 1 1 32
    (Tick.mk 4 4 4 none) (Tick.mk 8 8 8 none) (Tick.mk 12 12 12 (some 7))
    7 rfl rfl rfl (by decide) (by decide) (by decide)

end ClaimC7

example :
    (attempt 4 { consecutiveFailures := 4, lastAttempt := 0 } 1 1 (some 9)).result
      = .gateClosed := by decide

example : cooldownNs 0 = 2000000000 := by decide

example : cooldownNs 33 < 0 := by decide
